import Mathlib

set_option maxRecDepth 10000

/-!
# Verification of the upload → request → render workflow of `src/App.tsx`

Shallow embedding of the single UI controller in `src/App.tsx`
(the "AI-Human-Extractor" image-editing front end).

The controller owns five state fields (`originalImage`, `editedImage`,
`prompt`, `isLoading`, `error`) and exposes two event handlers:

* `handleImageUpload` — the Upload Encoder: validates the chosen file's
  declared media type, reads it, stores the base64 payload;
* `handleGenerateClick` — the Edit Workflow Controller: validates
  preconditions, invokes the external edit collaborator
  (`editImageWithPrompt` from `services/geminiService`, an opaque
  boundary modelled as an `Except String String` outcome parameter), and
  maps the outcome back into state.

The asynchronous `handleGenerateClick` is split at its single suspension
point into `generateStart` (everything before the `await`, returning the
request issued, if any) and `generateResolve` (the `try`/`catch`/`finally`
continuation, closed over the request's captured arguments).  An extra
`pending` field records the in-flight request between the two halves; it is
a modelling device for the closure captured at the `await`, not a source
variable.  `handleGenerateClick` composes the two halves atomically and
also returns the list of collaborator calls the invocation made.

A small-step event system (`step`, `run`, `Reachable`) closes the handlers
under the UI's enabling conditions: the prompt textarea is disabled while
loading, the Generate button is disabled while loading or without an image,
and the file input is never disabled.
-/

/-- A user-supplied file as the DOM hands it over: an opaque name and the
declared MIME type string (`file.type` in the source). -/
structure FileData where
  name : String
  type : String
  deriving DecidableEq, Repr

/-- `interface ImageFile { file: File; base64: string }` from `src/App.tsx`. -/
structure ImageFile where
  file : FileData
  base64 : String
  deriving DecidableEq, Repr

/-- One invocation of the external edit collaborator
`editImageWithPrompt(base64, mediaType, prompt)` with the argument values
passed at the call site (`src/App.tsx` lines 100–104). -/
structure Request where
  payload : String
  mediaType : String
  promptText : String
  deriving DecidableEq, Repr

/-- The five `useState` fields of `App`, plus `pending`, which models the
request captured by the closure while `handleGenerateClick` is suspended at
its `await` (none when no request is in flight). -/
structure AppState where
  originalImage : Option ImageFile
  editedImage : Option String
  prompt : String
  isLoading : Bool
  error : Option String
  pending : Option Request
  deriving DecidableEq, Repr

/-- Whitespace as JavaScript's `String.prototype.trim` recognises it:
ECMAScript WhiteSpace (TAB, VT, FF, SP, NBSP, ZWNBSP and the Unicode
space separators Zs) and LineTerminator (LF, CR, LS, PS). -/
def jsIsSpace (c : Char) : Bool :=
  c = '\t' || c = '\n' || c = '\x0B' || c = '\x0C' || c = '\r' || c = ' '
  || c = '\u00A0' || c = '\u1680'
  || ('\u2000' ≤ c && c ≤ '\u200A')
  || c = '\u2028' || c = '\u2029' || c = '\u202F' || c = '\u205F'
  || c = '\u3000' || c = '\uFEFF'

/-- Drop leading whitespace from a character list. -/
def dropSpaces : List Char → List Char
  | [] => []
  | c :: cs => if jsIsSpace c then dropSpaces cs else c :: cs

/-- JavaScript `s.trim()`: remove leading and trailing whitespace. -/
def jsTrim (s : String) : String :=
  ⟨(dropSpaces (dropSpaces s.data).reverse).reverse⟩

/-- Does the character list have the second list as a prefix? -/
def listHasPrefix : List Char → List Char → Bool
  | _, [] => true
  | [], _ :: _ => false
  | c :: cs, p :: ps => c = p && listHasPrefix cs ps

/-- JavaScript `s.startsWith(p)`. -/
def jsStartsWith (s p : String) : Bool :=
  listHasPrefix s.data p.data

/-- Split a character list at every occurrence of the separator
(JavaScript `s.split(sep)` for a one-character separator). -/
def splitAtSep (sep : Char) : List Char → List (List Char)
  | [] => [[]]
  | c :: cs =>
    if c = sep then [] :: splitAtSep sep cs
    else
      match splitAtSep sep cs with
      | [] => [[c]]
      | part :: parts => (c :: part) :: parts

/-- JavaScript `s.split(sep)` for a one-character separator. -/
def jsSplit (s : String) (sep : Char) : List String :=
  (splitAtSep sep s.data).map String.mk

/-- The default editorial instruction pre-populating the prompt
(`src/App.tsx` line 65). -/
def defaultPrompt : String :=
  "From the uploaded image, please accurately isolate all human subjects and place them onto a uniform, neutral background. The output should be a new image featuring only the clear, high-resolution cutouts of the people."

/-- Initial state: no image, no result, default prompt, not loading, no
error (`src/App.tsx` lines 63–67). -/
def initState : AppState :=
  { originalImage := none
    editedImage := none
    prompt := defaultPrompt
    isLoading := false
    error := none
    pending := none }

/-- `fileToBase64` resolves `(reader.result as string).split(',')[1]`: the
text after the first comma of the data URL produced by `readAsDataURL`
(such a URL always contains a comma, so the default is never taken). -/
def fileToBase64 (readerResult : String) : String :=
  (jsSplit readerResult ',').getD 1 ""

/-- `handleImageUpload` (`src/App.tsx` lines 69–83).  `file?` is
`e.target.files?.[0]`; `readOutcome` is how the `FileReader` resolves:
`Except.ok r` delivers the reader's data-URL string `r`, `Except.error ()`
is the `onerror` rejection (whose payload the handler discards). -/
def handleImageUpload (s : AppState) (file? : Option FileData)
    (readOutcome : Except Unit String) : AppState :=
  match file? with
  | some file =>
    if jsStartsWith file.type "image/" then
      match readOutcome with
      | Except.ok r =>
        { s with originalImage := some { file := file, base64 := fileToBase64 r }
                 editedImage := none
                 error := none }
      | Except.error _ =>
        { s with error := some "Failed to read the image file." }
    else
      { s with error := some "Please select a valid image file." }
  | none =>
    { s with error := some "Please select a valid image file." }

/-- First half of `handleGenerateClick` (`src/App.tsx` lines 85–104): the
synchronous precondition checks and, when they pass, the transition to
Loading together with the collaborator call.  The second component is the
request issued (`none` when a precondition failed and the handler
returned). -/
def generateStart (s : AppState) : AppState × Option Request :=
  match s.originalImage with
  | none =>
    ({ s with error := some "Please upload an image first." }, none)
  | some img =>
    if jsTrim s.prompt = "" then
      ({ s with error := some "Please enter an editing prompt." }, none)
    else
      let req : Request :=
        { payload := img.base64, mediaType := img.file.type, promptText := s.prompt }
      ({ s with isLoading := true
                error := none
                editedImage := none
                pending := some req }, some req)

/-- Second half of `handleGenerateClick` (`src/App.tsx` lines 99–110): the
continuation after the `await`.  `req` is the closure-captured request (so
the success branch composes the data URI from the media type captured at
call time); `outcome` is the collaborator's resolution.  The `finally`
block always clears the loading flag. -/
def generateResolve (s : AppState) (req : Request)
    (outcome : Except String String) : AppState :=
  let s1 :=
    match outcome with
    | Except.ok resultBase64 =>
      { s with editedImage := some ("data:" ++ req.mediaType ++ ";base64," ++ resultBase64) }
    | Except.error msg =>
      { s with error := some msg }
  { s1 with isLoading := false, pending := none }

/-- A whole `handleGenerateClick` invocation run to completion with no
interleaved events, given the collaborator outcome `svc`.  Returns the
final state and the list of collaborator calls the invocation made. -/
def handleGenerateClick (s : AppState) (svc : Except String String) :
    AppState × List Request :=
  match generateStart s with
  | (s1, none) => (s1, [])
  | (s1, some req) => (generateResolve s1 req svc, [req])

/-- The user-visible events closing the controller under its UI:
prompt edits, file-input changes (with the environment's read outcome),
Generate clicks, and resolutions of an in-flight collaborator call. -/
inductive Event where
  | promptInput (p : String)
  | upload (file? : Option FileData) (readOutcome : Except Unit String)
  | genStart
  | genResolve (outcome : Except String String)
  deriving Repr

/-- One UI step.  `none` means the event cannot fire: the prompt textarea
is disabled while loading (line 142), the Generate button is disabled while
loading or without an image (line 148), and a resolution needs an in-flight
request.  The file input is never disabled. -/
def step (s : AppState) : Event → Option AppState
  | Event.promptInput p =>
    if s.isLoading then none else some { s with prompt := p }
  | Event.upload file? readOutcome =>
    some (handleImageUpload s file? readOutcome)
  | Event.genStart =>
    if s.isLoading || s.originalImage.isNone then none
    else some (generateStart s).1
  | Event.genResolve outcome =>
    match s.pending with
    | none => none
    | some req => some (generateResolve s req outcome)

/-- Run a sequence of events from a given state; `none` when some event in
the sequence cannot fire. -/
def runFrom (s : AppState) : List Event → Option AppState
  | [] => some s
  | e :: es =>
    match step s e with
    | none => none
    | some s' => runFrom s' es

/-- Run a sequence of events from the initial state. -/
def run (es : List Event) : Option AppState := runFrom initState es

/-- A state the controller can actually be in. -/
def Reachable (s : AppState) : Prop := ∃ es : List Event, run es = some s

/-! ## Concrete fixtures used by witnesses and counterexamples -/

/-- A well-typed image file, as in the spec's scenario. -/
def pFile : FileData := { name := "photo.png", type := "image/png" }

/-- The stored image after a successful upload of `pFile` whose reader
produced the data URL `"d,QUJD"`. -/
def pImg : ImageFile := { file := pFile, base64 := "QUJD" }

/-- A file whose declared type is not an image type. -/
def txtFile : FileData := { name := "notes.txt", type := "text/plain" }

/-- A state holding an uploaded image and a non-blank prompt. -/
def readyState : AppState :=
  { initState with originalImage := some pImg, prompt := "Remove the background" }

/-! ## Invariant machinery for the reachability claims -/

/-- The part of the spec's §3 invariant that the code maintains: the result
image is never present while the loading flag is up. -/
def LoadInv (s : AppState) : Prop := s.isLoading = true → s.editedImage = none

theorem step_preserves_LoadInv (s s' : AppState) (e : Event)
    (h : step s e = some s') (hs : LoadInv s) : LoadInv s' := by
  cases e with
  | promptInput p =>
    by_cases hl : s.isLoading
    · simp [step, hl] at h
    · simp [step, hl] at h
      intro ht
      rw [← h] at ht
      simp at ht
  | upload file? readOutcome =>
    simp [step] at h
    cases file? with
    | none =>
      simp [handleImageUpload] at h
      intro ht
      rw [← h] at ht ⊢
      exact hs ht
    | some f =>
      by_cases htype : jsStartsWith f.type "image/" = true
      · cases readOutcome with
        | ok r =>
          simp [handleImageUpload, htype] at h
          intro ht
          rw [← h]
        | error u =>
          simp [handleImageUpload, htype] at h
          intro ht
          rw [← h] at ht ⊢
          exact hs ht
      · simp [handleImageUpload, htype] at h
        intro ht
        rw [← h] at ht ⊢
        exact hs ht
  | genStart =>
    simp [step] at h
    obtain ⟨⟨hl, himg⟩, hgen⟩ := h
    cases himg2 : s.originalImage with
    | none => exact absurd himg2 himg
    | some img =>
      by_cases hp : jsTrim s.prompt = ""
      · simp [generateStart, himg2, hp] at hgen
        intro ht
        rw [← hgen] at ht
        simp [hl] at ht
      · simp [generateStart, himg2, hp] at hgen
        intro ht
        rw [← hgen]
  | genResolve outcome =>
    cases hp : s.pending with
    | none => simp [step, hp] at h
    | some req =>
      simp [step, hp] at h
      intro ht
      rw [← h] at ht
      cases outcome <;> simp [generateResolve] at ht

theorem runFrom_preserves_LoadInv (es : List Event) (s s' : AppState)
    (hs : LoadInv s) (h : runFrom s es = some s') : LoadInv s' := by
  induction es generalizing s with
  | nil =>
    simp [runFrom] at h
    rw [← h]
    exact hs
  | cons e es ih =>
    rw [runFrom] at h
    cases hstep : step s e with
    | none => rw [hstep] at h; exact absurd h (by simp)
    | some s1 =>
      rw [hstep] at h
      exact ih s1 (step_preserves_LoadInv s s1 e hstep hs) h

/-! ## Claims C1–C5: the Generate action -/

/-- C1: for every Generate invocation whose preconditions pass (image
present, trimmed prompt non-empty), if the collaborator returns payload
`P`, then the result image is exactly
`data:<mediaType>;base64,P` for the stored image's media type, and the
workflow returns to Idle: loading false, error unset. -/
theorem C1_generate_success (s : AppState) (img : ImageFile) (P : String)
    (hi : s.originalImage = some img) (hp : jsTrim s.prompt ≠ "") :
    ((handleGenerateClick s (Except.ok P)).1).editedImage
        = some ("data:" ++ img.file.type ++ ";base64," ++ P)
    ∧ ((handleGenerateClick s (Except.ok P)).1).isLoading = false
    ∧ ((handleGenerateClick s (Except.ok P)).1).error = none := by
  simp [handleGenerateClick, generateStart, generateResolve, hi, hp]

theorem C1_generate_success_witness :
    (readyState.originalImage = some pImg ∧ jsTrim readyState.prompt ≠ "")
    ∧ ((handleGenerateClick readyState (Except.ok "abcd1234")).1).editedImage
        = some "data:image/png;base64,abcd1234"
    ∧ ((handleGenerateClick readyState (Except.ok "abcd1234")).1).isLoading = false
    ∧ ((handleGenerateClick readyState (Except.ok "abcd1234")).1).error = none :=
  ⟨⟨by decide, by decide⟩,
    C1_generate_success readyState pImg "abcd1234" (by decide) (by decide)⟩

/-- C2: for every Generate invocation whose preconditions pass, if the
collaborator fails with message `M`, the error state equals `M` verbatim,
the result image is unset, and loading is false afterwards. -/
theorem C2_generate_failure (s : AppState) (img : ImageFile) (M : String)
    (hi : s.originalImage = some img) (hp : jsTrim s.prompt ≠ "") :
    ((handleGenerateClick s (Except.error M)).1).error = some M
    ∧ ((handleGenerateClick s (Except.error M)).1).editedImage = none
    ∧ ((handleGenerateClick s (Except.error M)).1).isLoading = false := by
  simp [handleGenerateClick, generateStart, generateResolve, hi, hp]

theorem C2_generate_failure_witness :
    (readyState.originalImage = some pImg ∧ jsTrim readyState.prompt ≠ "")
    ∧ ((handleGenerateClick readyState (Except.error "Quota exceeded")).1).error
        = some "Quota exceeded"
    ∧ ((handleGenerateClick readyState (Except.error "Quota exceeded")).1).editedImage = none
    ∧ ((handleGenerateClick readyState (Except.error "Quota exceeded")).1).isLoading = false :=
  ⟨⟨by decide, by decide⟩,
    C2_generate_failure readyState pImg "Quota exceeded" (by decide) (by decide)⟩

/-- A state with a valid image and a prompt carrying surrounding
whitespace, separating the raw prompt from its trimmed form. -/
def paddedPromptState : AppState :=
  { initState with originalImage := some pImg, prompt := " add a hat " }

/-- C3 as amended: with an image present and a prompt whose trim is
non-empty, Generate invokes the collaborator exactly once, passing exactly
the stored encoded payload, the stored media type, and the prompt text as
entered (raw, not trimmed).  The original claim said the trimmed prompt is
passed; the source passes `prompt`, not `prompt.trim()`
(`src/App.tsx` line 103). -/
theorem C3_generate_call (s : AppState) (img : ImageFile)
    (svc : Except String String)
    (hi : s.originalImage = some img) (hp : jsTrim s.prompt ≠ "") :
    (handleGenerateClick s svc).2
      = [{ payload := img.base64, mediaType := img.file.type,
           promptText := s.prompt }] := by
  simp [handleGenerateClick, generateStart, hi, hp]

theorem C3_generate_call_counterexample :
    ¬ (handleGenerateClick paddedPromptState (Except.ok "RR")).2
        = [{ payload := pImg.base64, mediaType := pImg.file.type,
             promptText := jsTrim paddedPromptState.prompt }] := by decide

theorem C3_generate_call_witness :
    (paddedPromptState.originalImage = some pImg
      ∧ jsTrim paddedPromptState.prompt ≠ "")
    ∧ (handleGenerateClick paddedPromptState (Except.ok "RR")).2
        = [{ payload := "QUJD", mediaType := "image/png",
             promptText := " add a hat " }] :=
  ⟨⟨by decide, by decide⟩,
    C3_generate_call paddedPromptState pImg (Except.ok "RR") (by decide) (by decide)⟩

/-- C4: with no image uploaded, Generate sets the error to exactly
"Please upload an image first.", never invokes the collaborator (empty
call list), never sets loading, and changes no other state field (the
full-state equation fixes every other field). -/
theorem C4_generate_without_image (s : AppState) (svc : Except String String)
    (hi : s.originalImage = none) :
    handleGenerateClick s svc
      = ({ s with error := some "Please upload an image first." }, []) := by
  simp [handleGenerateClick, generateStart, hi]

theorem C4_generate_without_image_witness :
    initState.originalImage = none
    ∧ handleGenerateClick initState (Except.ok "RR")
        = ({ initState with error := some "Please upload an image first." }, []) :=
  ⟨by decide, C4_generate_without_image initState (Except.ok "RR") (by decide)⟩

/-- A state with a valid image and a whitespace-only prompt (a mix of
space, vertical tab, no-break space and form feed, all of which
`String.prototype.trim` strips). -/
def blankPromptState : AppState :=
  { initState with originalImage := some pImg, prompt := " \x0B \x0C " }

/-- C5: with an image present and a prompt that is empty or
whitespace-only after trimming, Generate sets the error to exactly
"Please enter an editing prompt.", never invokes the collaborator (empty
call list), and loading never becomes true (the full-state equation leaves
the loading flag untouched, and no intermediate state exists on this
branch). -/
theorem C5_generate_blank_prompt (s : AppState) (img : ImageFile)
    (svc : Except String String)
    (hi : s.originalImage = some img) (hp : jsTrim s.prompt = "") :
    handleGenerateClick s svc
      = ({ s with error := some "Please enter an editing prompt." }, []) := by
  simp [handleGenerateClick, generateStart, hi, hp]

theorem C5_generate_blank_prompt_witness :
    (blankPromptState.originalImage = some pImg
      ∧ jsTrim blankPromptState.prompt = "")
    ∧ handleGenerateClick blankPromptState (Except.ok "RR")
        = ({ blankPromptState with error := some "Please enter an editing prompt." }, []) :=
  ⟨⟨by decide, by decide⟩,
    C5_generate_blank_prompt blankPromptState pImg (Except.ok "RR") (by decide) (by decide)⟩

/-! ## Claims C6, C7, C9, C10: the upload handler -/

/-- C6: for every file whose declared type does not start with `image/`,
the upload is rejected before any encoding is attempted (the result does
not depend on the read outcome, which is universally quantified on the
left and absent on the right): the error becomes exactly
"Please select a valid image file." and every other field — the selected
image in particular — is unchanged. -/
theorem C6_upload_wrong_type (s : AppState) (f : FileData)
    (readOutcome : Except Unit String)
    (ht : jsStartsWith f.type "image/" = false) :
    handleImageUpload s (some f) readOutcome
      = { s with error := some "Please select a valid image file." } := by
  simp [handleImageUpload, ht]

theorem C6_upload_wrong_type_witness :
    jsStartsWith txtFile.type "image/" = false
    ∧ handleImageUpload initState (some txtFile) (Except.ok "d,QUJD")
        = { initState with error := some "Please select a valid image file." } :=
  ⟨by decide,
    C6_upload_wrong_type initState txtFile (Except.ok "d,QUJD") (by decide)⟩

/-- C7: for every successful upload (image-typed file whose read
delivers the data URL `r`), the selected image is replaced wholesale by
the new file with the base64 payload extracted from `r`, the result image
and the error are cleared, and every other field — the prompt in
particular — is unchanged. -/
theorem C7_upload_success (s : AppState) (f : FileData) (r : String)
    (ht : jsStartsWith f.type "image/" = true) :
    handleImageUpload s (some f) (Except.ok r)
      = { s with originalImage := some { file := f, base64 := fileToBase64 r }
                 editedImage := none
                 error := none } := by
  simp [handleImageUpload, ht]

theorem C7_upload_success_witness :
    jsStartsWith pFile.type "image/" = true
    ∧ handleImageUpload initState (some pFile) (Except.ok "data:image/png;base64,QUJD")
        = { initState with originalImage := some pImg
                           editedImage := none
                           error := none } :=
  ⟨by decide,
    C7_upload_success initState pFile "data:image/png;base64,QUJD" (by decide)⟩

/-- C9: for every upload of an image-typed file whose underlying read
fails, the error becomes exactly "Failed to read the image file." and
every other field is unchanged — the selected image and the result image
in particular keep their values from before the attempt; the handler
makes no retry (it is a single total function of the one read outcome). -/
theorem C9_upload_read_failure (s : AppState) (f : FileData)
    (ht : jsStartsWith f.type "image/" = true) :
    handleImageUpload s (some f) (Except.error ())
      = { s with error := some "Failed to read the image file." } := by
  simp [handleImageUpload, ht]

theorem C9_upload_read_failure_witness :
    jsStartsWith pFile.type "image/" = true
    ∧ handleImageUpload readyState (some pFile) (Except.error ())
        = { readyState with error := some "Failed to read the image file." } :=
  ⟨by decide, C9_upload_read_failure readyState pFile (by decide)⟩

/-- C10: when the change event carries no file at all, the handler takes
the same rejection branch as a wrong-typed file: the error becomes exactly
"Please select a valid image file." and every other field — the selected
image, the result image and the prompt in particular — is unchanged. -/
theorem C10_upload_no_file (s : AppState) (readOutcome : Except Unit String) :
    handleImageUpload s none readOutcome
      = { s with error := some "Please select a valid image file." } := by
  simp [handleImageUpload]

/-! ## Claim C8: the workflow-status invariant -/

/-- A trace reaching an Idle-with-Error state that still displays a stale
result: upload succeeds, a generation succeeds, the user blanks the
prompt, and Generate then fails its precondition check — which sets the
error without clearing the result image. -/
def staleResultTrace : List Event :=
  [Event.promptInput "p",
   Event.upload (some pFile) (Except.ok "d,QUJD"),
   Event.genStart,
   Event.genResolve (Except.ok "RR"),
   Event.promptInput " ",
   Event.genStart]

/-- The state `staleResultTrace` reaches: error set, result still set. -/
def staleResultState : AppState :=
  { originalImage := some pImg
    editedImage := some "data:image/png;base64,RR"
    prompt := " "
    isLoading := false
    error := some "Please enter an editing prompt."
    pending := none }

/-- A trace stopping mid-request, in the Loading state. -/
def midLoadingTrace : List Event :=
  [Event.promptInput "p",
   Event.upload (some pFile) (Except.ok "d,QUJD"),
   Event.genStart]

/-- The Loading state `midLoadingTrace` reaches. -/
def midLoadingState : AppState :=
  { originalImage := some pImg
    editedImage := none
    prompt := "p"
    isLoading := true
    error := none
    pending := some { payload := "QUJD", mediaType := "image/png", promptText := "p" } }

theorem C8_status_counterexample :
    ¬ (∀ s : AppState, Reachable s →
        (s.isLoading = true → s.error = none)
        ∧ (s.error ≠ none → s.editedImage = none)
        ∧ (s.isLoading = true → s.editedImage = none)) := by
  intro h
  have hr : Reachable staleResultState := ⟨staleResultTrace, by decide⟩
  exact absurd ((h staleResultState hr).2.1 (by decide)) (by decide)

/-- C8 as amended: in every reachable state the result image is unset
while the loading flag is up, and the one transition that enters Loading
(a Generate passing its preconditions) clears both the result image and
the error at that moment.  The original claim further asserted that
Loading and Error are mutually exclusive and that every transition
entering Error clears the result image; the precondition-failure branches
of `handleGenerateClick` (`src/App.tsx` lines 86–93) set the error
without touching the result, so a stale result can be displayed next to
an error, refuting those parts. -/
theorem C8_loading_result_invariant (s : AppState) (hs : Reachable s) :
    (s.isLoading = true → s.editedImage = none)
    ∧ (∀ s1 req, generateStart s = (s1, some req) →
        s1.isLoading = true ∧ s1.editedImage = none ∧ s1.error = none) := by
  constructor
  · obtain ⟨es, hrun⟩ := hs
    exact runFrom_preserves_LoadInv es initState s
      (by intro h; exact absurd h (by decide)) hrun
  · intro s1 req h
    cases himg : s.originalImage with
    | none => simp [generateStart, himg] at h
    | some img =>
      by_cases hp : jsTrim s.prompt = ""
      · simp [generateStart, himg, hp] at h
      · simp [generateStart, himg, hp] at h
        rw [← h.1]
        simp

theorem C8_loading_result_invariant_witness :
    Reachable midLoadingState ∧ midLoadingState.editedImage = none := by
  have hr : Reachable midLoadingState := ⟨midLoadingTrace, by decide⟩
  exact ⟨hr, (C8_loading_result_invariant midLoadingState hr).1 (by decide)⟩
